import Mathlib

/-!
Verification of `update_base_image.js`, a script that updates the base image
reference of a Buildkite cluster queue through the GraphQL API (Token-API
backend), together with the spec-described Session-Scrape token extraction.

Pure response-handling logic is embedded shallowly: structured GraphQL
responses become Lean structures with `Option` fields mirroring JavaScript
optional chaining, throw sites become `Except.error` values tagged with the
error kind of the throw site, and the HTTP layer is represented by the
status/body classification performed in `makeGraphQLRequest`.
-/

namespace UpdateBaseImage

/-- Error kinds of the system, one constructor per kind of the error
taxonomy; each carries the human-readable message built at the throw site. -/
inductive UpdateError where
  | configurationError (message : String)
  | transportError (statusCode : Nat) (message : String)
  | parseError (message : String)
  | organizationNotFoundError (message : String)
  | mutationError (message : String)
  | sessionAcquisitionError (message : String)
deriving DecidableEq

/-- One element of a GraphQL `errors` array: `{ message: ... }`. -/
structure GraphQLError where
  message : String
deriving DecidableEq

/-- The `data`/`errors` envelope of a parsed GraphQL response; either field
may be absent from the JSON. -/
structure GraphQLResponse (α : Type) where
  data : Option α
  errors : Option (List GraphQLError)
deriving DecidableEq

/-- The organization object selected by the `GetOrganization` query. -/
structure Organization where
  id : String
  name : String
  slug : String
deriving DecidableEq

/-- The `data` payload of the organization query: `{ organization: ... }`,
`null` when the slug does not resolve. -/
structure OrgData where
  organization : Option Organization
deriving DecidableEq

/-- `{ linux: { agentImageRef } }` leaf of the mutation's selection set. -/
structure LinuxSettings where
  agentImageRef : Option String
deriving DecidableEq

/-- `{ platformSettings: { linux } }` level of the queue object. -/
structure PlatformSettings where
  linux : Option LinuxSettings
deriving DecidableEq

/-- `{ hostedAgents: { platformSettings } }` level of the queue object. -/
structure HostedAgents where
  platformSettings : Option PlatformSettings
deriving DecidableEq

/-- The cluster queue object returned by the mutation. -/
structure ClusterQueue where
  id : String
  name : String
  hostedAgents : Option HostedAgents
deriving DecidableEq

/-- The `clusterQueueUpdate` payload: `{ clusterQueue: ... }`. -/
structure ClusterQueueUpdatePayload where
  clusterQueue : Option ClusterQueue
deriving DecidableEq

/-- The `data` payload of the update mutation. -/
structure MutData where
  clusterQueueUpdate : Option ClusterQueueUpdatePayload
deriving DecidableEq

/-- Message of the error thrown by `getOrganizationId` when
`response.data?.organization` is absent. -/
def orgNotFoundMessage (orgSlug : String) : String :=
  "Organization \"" ++ orgSlug ++ "\" not found or not accessible"

/-- `getOrganizationId`: checks `response.data?.organization` and returns
`response.data.organization.id`; the `errors` field is never inspected. -/
def getOrganizationId (orgSlug : String) (response : GraphQLResponse OrgData) :
    Except UpdateError String :=
  match response.data.bind (fun d => d.organization) with
  | none => .error (.organizationNotFoundError (orgNotFoundMessage orgSlug))
  | some org => .ok org.id

/-- Message of the error thrown by `updateClusterQueue` when the `errors`
array is non-empty: the individual messages joined by `", "` after the
`"GraphQL errors: "` prefix. -/
def graphQLErrorsMessage (es : List GraphQLError) : String :=
  "GraphQL errors: " ++ String.intercalate ", " (es.map (fun e => e.message))

/-- Message of the error thrown by `updateClusterQueue` when
`response.data?.clusterQueueUpdate?.clusterQueue` is absent. -/
def noDataMessage : String := "Failed to update cluster queue - no data returned"

/-- The nested queue object `response.data?.clusterQueueUpdate?.clusterQueue`
accessed by optional chaining. -/
def nestedClusterQueue (response : GraphQLResponse MutData) : Option ClusterQueue :=
  (response.data.bind (fun d => d.clusterQueueUpdate)).bind (fun u => u.clusterQueue)

/-- Second half of `updateClusterQueue`: the data-field check performed after
the errors check has passed. -/
def updateClusterQueueData (response : GraphQLResponse MutData) :
    Except UpdateError ClusterQueue :=
  match nestedClusterQueue response with
  | none => .error (.mutationError noDataMessage)
  | some updatedQueue => .ok updatedQueue

/-- `updateClusterQueue` response validation: `response.errors` is checked
for non-emptiness first (`response.errors && response.errors.length > 0`),
then the nested queue object is required. -/
def updateClusterQueue (response : GraphQLResponse MutData) :
    Except UpdateError ClusterQueue :=
  match response.errors with
  | some es =>
    if 0 < es.length then .error (.mutationError (graphQLErrorsMessage es))
    else updateClusterQueueData response
  | none => updateClusterQueueData response

/-- `updatedQueue.hostedAgents?.platformSettings?.linux?.agentImageRef`. -/
def nestedAgentImageRef (q : ClusterQueue) : Option String :=
  ((q.hostedAgents.bind (fun h => h.platformSettings)).bind
    (fun p => p.linux)).bind (fun l => l.agentImageRef)

/-- The text printed for the confirmed image reference:
`${newImageRef || 'Not set'}` (JavaScript falsiness: an absent or empty
reference prints `Not set`). -/
def displayedImageRef (q : ClusterQueue) : String :=
  match nestedAgentImageRef q with
  | some r => if r = "" then "Not set" else r
  | none => "Not set"

/-- The success outcome message logged by `updateClusterQueue` on the happy
path, as one string. -/
def updateSuccessMessage (q : ClusterQueue) : String :=
  "✓ Successfully updated queue \"" ++ q.name ++ "\" (" ++ q.id ++ ")\n" ++
    "✓ New agent image reference: " ++ displayedImageRef q

/-- Message of the rejection produced by `makeGraphQLRequest` for a non-2xx
HTTP status: `HTTP ${statusCode}: ${statusMessage}\nResponse: ${data}`. -/
def transportErrorMessage (statusCode : Nat) (statusMessage responseData : String) :
    String :=
  "HTTP " ++ toString statusCode ++ ": " ++ statusMessage ++ "\nResponse: " ++
    responseData

/-- Status/body classification of `makeGraphQLRequest`: a status in
`[200, 300)` resolves with the parsed JSON body (the parse itself is an
oracle argument; a body that does not parse rejects with a parse error), any
other status rejects with a transport error carrying the status and the raw
body text. -/
def handleGraphQLResponse {α : Type} (statusCode : Nat)
    (statusMessage responseData : String) (parsed : Option α) :
    Except UpdateError α :=
  if 200 ≤ statusCode ∧ statusCode < 300 then
    match parsed with
    | some jsonResponse => .ok jsonResponse
    | none => .error (.parseError "Failed to parse GraphQL response")
  else
    .error (.transportError statusCode
      (transportErrorMessage statusCode statusMessage responseData))

/-- The Token-API backend instance: the bearer credential captured at
construction. -/
structure BuildkiteImageUpdater where
  apiToken : String
deriving DecidableEq

/-- JavaScript falsiness of `process.env.BUILDKITE_API_TOKEN`: the variable
is absent, or is present with the empty string as value. -/
def isFalsyEnvString (v : Option String) : Bool :=
  match v with
  | none => true
  | some s => s = ""

/-- Message of the error thrown by the constructor when the credential is
falsy. -/
def missingTokenMessage : String :=
  "BUILDKITE_API_TOKEN environment variable is required"

/-- A structured request as sent by `makeGraphQLRequest`: operation text,
vars, headers. -/
structure SentRequest where
  query : String
  vars : List (String × String)
  headers : List (String × String)
deriving DecidableEq

/-- `BuildkiteImageUpdater` constructor: reads the credential from the
environment and throws when it is falsy. The returned list records the
network calls the constructor makes, which is none on every path. -/
def mkBuildkiteImageUpdater (env : Option String) :
    List SentRequest × Except UpdateError BuildkiteImageUpdater :=
  if isFalsyEnvString env then
    ([], .error (.configurationError missingTokenMessage))
  else
    ([], .ok ⟨env.getD ""⟩)

/-- Escape of a string for inclusion in a JSON document (quote and backslash
are the characters occurring in this system's payloads). -/
def jsonEscape (s : String) : String :=
  s.foldl (fun acc c =>
    acc ++ (if c = '"' then "\\\"" else if c = '\\' then "\\\\"
            else String.singleton c)) ""

/-- A JSON string literal. -/
def jsonStr (s : String) : String := "\"" ++ jsonEscape s ++ "\""

/-- A JSON object from already-serialized field values. -/
def jsonObj (fields : List (String × String)) : String :=
  "\x7b" ++ String.intercalate "," (fields.map (fun f => jsonStr f.1 ++ ":" ++ f.2))
    ++ "\x7d"

/-- `JSON.stringify({ query, vars })`, the POST body. -/
def postDataFor (query : String) (vars : List (String × String)) : String :=
  jsonObj [("query", jsonStr query),
           ("vars", jsonObj (vars.map (fun v => (v.1, jsonStr v.2))))]

/-- The headers set by `makeGraphQLRequest`. -/
def requestHeaders (apiToken postData : String) : List (String × String) :=
  [("Content-Type", "application/json"),
   ("Content-Length", toString postData.utf8ByteSize),
   ("Authorization", "Bearer " ++ apiToken),
   ("User-Agent", "Buildkite-Image-Updater/2.0")]

/-- A request assembled by `makeGraphQLRequest` from an operation and its
vars. -/
def mkSentRequest (apiToken query : String) (vars : List (String × String)) :
    SentRequest :=
  ⟨query, vars, requestHeaders apiToken (postDataFor query vars)⟩

/-- The `GetOrganization` query text. -/
def getOrganizationQuery : String :=
  "\n            query GetOrganization($slug: ID!) \x7b\n                organization(slug: $slug) \x7b\n                    id\n                    name\n                    slug\n                \x7d\n            \x7d\n        "

/-- The `UpdateClusterQueue` mutation text. -/
def updateClusterQueueMutation : String :=
  "\n            mutation UpdateClusterQueue($organizationId: ID!, $queueId: ID!, $imageUrl: String!) \x7b\n                clusterQueueUpdate(input: \x7b\n                    organizationId: $organizationId\n                    id: $queueId\n                    hostedAgents: \x7b\n                        platformSettings: \x7b\n                            linux: \x7b\n                                agentImageRef: $imageUrl\n                            \x7d\n                        \x7d\n                    \x7d\n                \x7d) \x7b\n                    clusterQueue \x7b\n                        id\n                        name\n                        hostedAgents \x7b\n                            platformSettings \x7b\n                                linux \x7b\n                                    agentImageRef\n                                \x7d\n                            \x7d\n                        \x7d\n                    \x7d\n                \x7d\n            \x7d\n        "

/-- A raw HTTP response to one GraphQL call: status line, body text, and the
result of `JSON.parse` on the body. -/
structure RawResponse (α : Type) where
  statusCode : Nat
  statusMessage : String
  body : String
  parsed : Option α
deriving DecidableEq

/-- `updateBaseImageUrl`: resolves the organization id from the first
response, then validates the mutation response; returns the requests sent
and the outcome. `clusterId` is received from the caller but only echoed to
the console, which is outside the outcome. -/
def updateBaseImageUrl (apiToken orgSlug clusterId queueId imageUrl : String)
    (orgResponse : RawResponse (GraphQLResponse OrgData))
    (mutResponse : RawResponse (GraphQLResponse MutData)) :
    List SentRequest × Except UpdateError ClusterQueue :=
  let orgRequest := mkSentRequest apiToken getOrganizationQuery [("slug", orgSlug)]
  match (handleGraphQLResponse orgResponse.statusCode orgResponse.statusMessage
      orgResponse.body orgResponse.parsed).bind (getOrganizationId orgSlug) with
  | .error e => ([orgRequest], .error e)
  | .ok organizationId =>
    let mutRequest := mkSentRequest apiToken updateClusterQueueMutation
      [("organizationId", organizationId), ("queueId", queueId),
       ("imageUrl", imageUrl)]
    ([orgRequest, mutRequest],
      (handleGraphQLResponse mutResponse.statusCode mutResponse.statusMessage
        mutResponse.body mutResponse.parsed).bind updateClusterQueue)

/-- Split a character list at the first occurrence of `pat`: `some (b, a)`
with the input equal to `b ++ pat ++ a` and `b` shortest, `none` when `pat`
does not occur. -/
def splitFirst (pat : List Char) : List Char → Option (List Char × List Char)
  | [] => if pat.isPrefixOf [] then some ([], []) else none
  | c :: rest =>
    if pat.isPrefixOf (c :: rest) then some ([], (c :: rest).drop pat.length)
    else (splitFirst pat rest).map (fun p => (c :: p.1, p.2))

/-- The attribute assignment opening the anti-forgery token pattern. -/
def authenticityTokenMarker : String := "name=\"authenticity_token\""

/-- The value-attribute opening of the token pattern's value group. -/
def valueAttrMarker : String := "value=\""

/-- Message of the Session-Scrape failure when the token pattern is absent. -/
def sessionAcquisitionMessage : String :=
  "anti-forgery token not found — caller is not authenticated or lacks access to this resource"

/-- Modelled from the spec: the Session-Scrape backend's anti-forgery token
extraction; the backend's source is not under src/, only the spec describes
it. The body is scanned for a pattern of the form
`name="authenticity_token" ... value="<token>"` and the first match's value
group is returned; when no match exists the extraction fails with
`SessionAcquisitionError`. -/
def extractAuthenticityToken (body : String) : Except UpdateError String :=
  match splitFirst authenticityTokenMarker.data body.data with
  | none => .error (.sessionAcquisitionError sessionAcquisitionMessage)
  | some (_, afterMarker) =>
    match splitFirst valueAttrMarker.data afterMarker with
    | none => .error (.sessionAcquisitionError sessionAcquisitionMessage)
    | some (_, afterValue) =>
      match afterValue.dropWhile (fun c => c != '"') with
      | '"' :: _ => .ok ⟨afterValue.takeWhile (fun c => c != '"')⟩
      | _ => .error (.sessionAcquisitionError sessionAcquisitionMessage)

/-- The body contains the token pattern with value group `tok` at the given
decomposition. -/
def tokenPatternAt (body : String) (pre mid tok post : List Char) : Prop :=
  body.data = pre ++ authenticityTokenMarker.data ++ mid ++
    valueAttrMarker.data ++ tok ++ '"' :: post

/-- The body contains an attribute assignment of the form
`name="authenticity_token" ... value="<token>"`. -/
def containsTokenPattern (body : String) : Prop :=
  ∃ pre mid tok post, tokenPatternAt body pre mid tok post

lemma splitFirst_eq_some {pat l b a : List Char}
    (h : splitFirst pat l = some (b, a)) : l = b ++ pat ++ a := by
  induction l generalizing b a with
  | nil =>
    simp only [splitFirst] at h
    split at h
    · rename_i hpre
      rw [List.isPrefixOf_iff_prefix, List.prefix_nil] at hpre
      simp only [Option.some.injEq, Prod.mk.injEq] at h
      simp [hpre, ← h.1, ← h.2]
    · exact absurd h (by simp)
  | cons c rest ih =>
    simp only [splitFirst] at h
    split at h
    · rename_i hpre
      rw [ List.isPrefixOf_iff_prefix] at hpre
      obtain ⟨t, ht⟩ := hpre
      simp only [Option.some.injEq, Prod.mk.injEq] at h
      rw [← h.1, ← h.2, ← ht, List.nil_append, List.drop_left]
    · rw [Option.map_eq_some'] at h
      obtain ⟨p, hp, hpe⟩ := h
      obtain ⟨hb, ha⟩ := Prod.mk.injEq .. ▸ hpe
      rw [← hb, ← ha, List.cons_append, List.cons_append]
      exact congrArg (c :: ·) (ih hp)

lemma splitFirst_min {pat l b a : List Char}
    (h : splitFirst pat l = some (b, a)) :
    ∀ b' a', l = b' ++ pat ++ a' → b.length ≤ b'.length := by
  induction l generalizing b a with
  | nil =>
    simp only [splitFirst] at h
    split at h
    · simp only [Option.some.injEq, Prod.mk.injEq] at h
      intro b' a' _
      simp [← h.1]
    · exact absurd h (by simp)
  | cons c rest ih =>
    simp only [splitFirst] at h
    split at h
    · simp only [Option.some.injEq, Prod.mk.injEq] at h
      intro b' a' _
      simp [← h.1]
    · rename_i hpre
      rw [Option.map_eq_some'] at h
      obtain ⟨p, hp, hpe⟩ := h
      obtain ⟨hb, _⟩ := Prod.mk.injEq .. ▸ hpe
      intro b' a' heq
      match b' with
      | [] =>
        exfalso
        apply hpre
        rw [ List.isPrefixOf_iff_prefix]
        exact ⟨a', by simpa using heq.symm⟩
      | c' :: b1 =>
        simp only [List.cons_append, List.cons.injEq] at heq
        have := ih hp b1 a' heq.2
        simp [← hb, Nat.succ_le_succ this]

lemma splitFirst_at_head {pat l : List Char} (h : pat <+: l) :
    splitFirst pat l = some ([], l.drop pat.length) := by
  match l with
  | [] =>
    have : pat = [] := List.prefix_nil.mp h
    simp [splitFirst, this]
  | c :: rest =>
    have : pat.isPrefixOf (c :: rest) := List.isPrefixOf_iff_prefix.mpr h
    simp [splitFirst, this]

lemma splitFirst_eq_some_of_first {pat a : List Char} :
    ∀ b : List Char,
      (∀ b' a', b ++ pat ++ a = b' ++ pat ++ a' → b.length ≤ b'.length) →
      splitFirst pat (b ++ pat ++ a) = some (b, a) := by
  intro b
  induction b with
  | nil =>
    intro _
    rw [List.nil_append]
    rw [splitFirst_at_head ⟨a, rfl⟩]
    simp [List.drop_left]
  | cons c b1 ih =>
    intro hmin
    have hpre : ¬ pat.isPrefixOf (c :: b1 ++ pat ++ a) := by
      intro hp
      rw [ List.isPrefixOf_iff_prefix] at hp
      obtain ⟨t, ht⟩ := hp
      have := hmin [] t (by simpa using ht.symm)
      simp at this
    have hrec : splitFirst pat (b1 ++ pat ++ a) = some (b1, a) := by
      apply ih
      intro b' a' heq
      have := hmin (c :: b') a' (by simpa using heq)
      simpa using this
    simp only [List.cons_append, splitFirst]
    rw [if_neg (by simpa using hpre)]
    show Option.map (fun p => (c :: p.1, p.2)) (splitFirst pat (b1 ++ pat ++ a))
      = some (c :: b1, a)
    rw [hrec]
    rfl

lemma splitFirst_eq_none {pat l : List Char} (h : splitFirst pat l = none) :
    ∀ b a, l ≠ b ++ pat ++ a := by
  induction l with
  | nil =>
    simp only [splitFirst] at h
    split at h
    · exact absurd h (by simp)
    · rename_i hpre
      intro b a heq
      apply hpre
      rw [ List.isPrefixOf_iff_prefix]
      have hlen := congrArg List.length heq
      simp only [List.length_nil, List.length_append] at hlen
      have hp : pat = [] := List.eq_nil_of_length_eq_zero (by omega)
      simp [hp]
  | cons c rest ih =>
    simp only [splitFirst] at h
    split at h
    · exact absurd h (by simp)
    · rename_i hpre
      rw [Option.map_eq_none'] at h
      intro b a heq
      match b with
      | [] =>
        apply hpre
        rw [ List.isPrefixOf_iff_prefix]
        exact ⟨a, by simpa using heq.symm⟩
      | c' :: b1 =>
        simp only [List.cons_append, List.cons.injEq] at heq
        exact ih h b1 a heq.2

lemma takeWhile_append_quote {tok post : List Char}
    (htok : ∀ x ∈ tok, x ≠ '"') :
    (tok ++ '"' :: post).takeWhile (fun c => c != '"') = tok ∧
      (tok ++ '"' :: post).dropWhile (fun c => c != '"') = '"' :: post := by
  induction tok with
  | nil => simp [List.takeWhile, List.dropWhile]
  | cons c cs ih =>
    have hc : (c != '"') = true := by
      simpa using htok c (by simp)
    have := ih (fun x hx => htok x (by simp [hx]))
    simp [List.takeWhile, List.dropWhile, hc, this.1, this.2]

lemma graphQLErrorsMessage_ne_noData (es : List GraphQLError) :
    graphQLErrorsMessage es ≠ noDataMessage := by
  intro h
  have hd : ("GraphQL errors: ").data ++
      (String.intercalate ", " (es.map (fun e => e.message))).data =
      noDataMessage.data := by
    rw [← String.data_append]
    exact congrArg String.data h
  have h16 : ("GraphQL errors: ").data =
      noDataMessage.data.take ("GraphQL errors: ").data.length := by
    rw [← hd, List.take_left]
  revert h16
  decide

/-- Claim C1, counterexample: a response whose errors array is
`[{message: "permission denied"}]` fails with message
`GraphQL errors: permission denied`, which is not equal to the joined error
messages `permission denied` alone. -/
theorem c1_counterexample :
    updateClusterQueue ⟨some ⟨some ⟨some ⟨"q_5", "custom", none⟩⟩⟩,
        some [⟨"permission denied"⟩]⟩
      = .error (.mutationError "GraphQL errors: permission denied") ∧
    "GraphQL errors: permission denied" ≠ "permission denied" :=
  ⟨rfl, by decide⟩

/-- Claim C1 as amended: for every mutation response whose errors collection
is non-empty, the update fails hard (independently of anything else in the
response), and the failure message is `GraphQL errors: ` followed by the
error messages joined by `, `. -/
theorem c1_errors_joined (response : GraphQLResponse MutData)
    (es : List GraphQLError) (herr : response.errors = some es)
    (hne : 0 < es.length) :
    updateClusterQueue response =
      .error (.mutationError ("GraphQL errors: " ++
        String.intercalate ", " (es.map (fun e => e.message)))) := by
  simp only [updateClusterQueue, herr]
  rw [if_pos hne]
  rfl

/-- Witness for `c1_errors_joined` at a two-error response. -/
theorem c1_errors_joined_witness :
    updateClusterQueue ⟨none, some [⟨"permission denied"⟩, ⟨"rate limited"⟩]⟩
      = .error (.mutationError ("GraphQL errors: " ++
          String.intercalate ", "
            (([⟨"permission denied"⟩, ⟨"rate limited"⟩] :
              List GraphQLError).map (fun e => e.message)))) :=
  c1_errors_joined _ _ rfl (by decide)

/-- Claim C2, counterexample: a response with an empty errors array and no
data fails with message `Failed to update cluster queue - no data returned`,
which is not equal to `no data returned`. -/
theorem c2_counterexample :
    updateClusterQueue ⟨none, some []⟩ =
      .error (.mutationError "Failed to update cluster queue - no data returned") ∧
    "Failed to update cluster queue - no data returned" ≠ "no data returned" :=
  ⟨rfl, by decide⟩

/-- Claim C2 as amended: for every mutation response with an empty (or
absent) errors collection that lacks the nested queue object, the update
fails with a mutation error whose message is
`Failed to update cluster queue - no data returned`. -/
theorem c2_no_data (response : GraphQLResponse MutData)
    (herr : response.errors = none ∨ response.errors = some [])
    (hq : nestedClusterQueue response = none) :
    updateClusterQueue response = .error (.mutationError noDataMessage) := by
  unfold updateClusterQueue
  rcases herr with h | h
  · rw [h]
    simp [updateClusterQueueData, hq]
  · rw [h]
    simp [updateClusterQueueData, hq]

/-- Witness for `c2_no_data` at a response with no errors field and no
data field. -/
theorem c2_no_data_witness :
    updateClusterQueue ⟨none, none⟩ = .error (.mutationError noDataMessage) :=
  c2_no_data _ (Or.inl rfl) rfl

/-- Claim C3: a response with a status outside `[200, 300)` is rejected with
a transport error carrying the status code and a message that contains the
raw body text; a 2xx response delivers the parsed envelope (errors field
included) to the caller unchanged. -/
theorem c3_transport (α : Type) (statusCode : Nat)
    (statusMessage responseData : String) :
    (statusCode < 200 ∨ 300 ≤ statusCode →
      ∀ parsed : Option α,
        handleGraphQLResponse statusCode statusMessage responseData parsed =
          .error (.transportError statusCode
            (transportErrorMessage statusCode statusMessage responseData))) ∧
    responseData.data <:+:
      (transportErrorMessage statusCode statusMessage responseData).data ∧
    (200 ≤ statusCode → statusCode < 300 → ∀ j : α,
      handleGraphQLResponse statusCode statusMessage responseData (some j) =
        .ok j) := by
  refine ⟨?_, ?_, ?_⟩
  · intro h parsed
    unfold handleGraphQLResponse
    rw [if_neg (fun hc => by rcases h with h' | h' <;> omega)]
  · refine ⟨("HTTP " ++ toString statusCode ++ ": " ++ statusMessage ++
      "\nResponse: ").data, [], ?_⟩
    simp [transportErrorMessage, String.data_append, List.append_assoc]
  · intro h1 h2 j
    unfold handleGraphQLResponse
    rw [if_pos ⟨h1, h2⟩]

/-- Witness for `c3_transport`: a 429 response is a transport error, a 200
response resolves with its parsed body. -/
theorem c3_transport_witness :
    handleGraphQLResponse 429 "Too Many Requests" "slow down"
        (none : Option (GraphQLResponse MutData)) =
      .error (.transportError 429
        (transportErrorMessage 429 "Too Many Requests" "slow down")) ∧
    handleGraphQLResponse 200 "OK" "\x7b\x7d"
        (some (⟨none, none⟩ : GraphQLResponse MutData)) = .ok ⟨none, none⟩ :=
  ⟨(c3_transport (GraphQLResponse MutData) 429 "Too Many Requests"
      "slow down").1 (Or.inr (by omega)) none,
   (c3_transport (GraphQLResponse MutData) 200 "OK" "\x7b\x7d").2.2
      (by omega) (by omega) ⟨none, none⟩⟩

/-- Claim C4, counterexample: at slug `my-org` the failure message is
`Organization "my-org" not found or not accessible`, which is not the
message `organization not found or not accessible by this credential`. -/
theorem c4_counterexample :
    getOrganizationId "my-org" ⟨none, none⟩ =
      .error (.organizationNotFoundError
        "Organization \"my-org\" not found or not accessible") ∧
    "Organization \"my-org\" not found or not accessible" ≠
      "organization not found or not accessible by this credential" :=
  ⟨rfl, by decide⟩

/-- Claim C4 as amended: a response lacking the organization object fails
with an organization-not-found error whose message is
`Organization "<slug>" not found or not accessible`; when the organization
object is present its id is returned. -/
theorem c4_resolution (orgSlug : String) (response : GraphQLResponse OrgData) :
    (response.data.bind (fun d => d.organization) = none →
      getOrganizationId orgSlug response =
        .error (.organizationNotFoundError (orgNotFoundMessage orgSlug))) ∧
    (∀ org, response.data.bind (fun d => d.organization) = some org →
      getOrganizationId orgSlug response = .ok org.id) := by
  constructor
  · intro h
    unfold getOrganizationId
    rw [h]
  · intro org h
    unfold getOrganizationId
    rw [h]

/-- Witness for `c4_resolution` covering both branches. -/
theorem c4_resolution_witness :
    getOrganizationId "my-org" ⟨none, none⟩ =
      .error (.organizationNotFoundError (orgNotFoundMessage "my-org")) ∧
    getOrganizationId "my-org" ⟨some ⟨some ⟨"org_9", "My Org", "my-org"⟩⟩, none⟩ =
      .ok "org_9" :=
  ⟨(c4_resolution "my-org" ⟨none, none⟩).1 rfl,
   (c4_resolution "my-org" ⟨some ⟨some ⟨"org_9", "My Org", "my-org"⟩⟩, none⟩).2
      ⟨"org_9", "My Org", "my-org"⟩ rfl⟩

/-- Claim C5: a mutation response with empty (or absent) errors and the
nested queue object present succeeds with the queue, and the confirmed image
reference returned by the remote occurs in the outcome message. -/
theorem c5_success (response : GraphQLResponse MutData) (q : ClusterQueue)
    (ref : String)
    (herr : response.errors = none ∨ response.errors = some [])
    (hq : nestedClusterQueue response = some q)
    (href : nestedAgentImageRef q = some ref) :
    updateClusterQueue response = .ok q ∧
    ref.data <:+: (updateSuccessMessage q).data := by
  constructor
  · unfold updateClusterQueue
    rcases herr with h | h
    · rw [h]
      simp [updateClusterQueueData, hq]
    · rw [h]
      simp [updateClusterQueueData, hq]
  · have hd : displayedImageRef q = if ref = "" then "Not set" else ref := by
      unfold displayedImageRef
      rw [href]
    by_cases hr : ref = ""
    · refine ⟨[], (updateSuccessMessage q).data, ?_⟩
      rw [hr]
      rfl
    · rw [if_neg hr] at hd
      refine ⟨("✓ Successfully updated queue \"" ++ q.name ++ "\" (" ++ q.id ++
        ")\n" ++ "✓ New agent image reference: ").data, [], ?_⟩
      rw [← hd]
      simp [updateSuccessMessage, String.data_append, List.append_assoc]

/-- Witness for `c5_success` at end-to-end scenario B: queue `q_5`, name
`custom`, confirmed reference `registry.example.com/img:v2`. -/
theorem c5_success_witness :
    updateClusterQueue
        ⟨some ⟨some ⟨some ⟨"q_5", "custom",
          some ⟨some ⟨some ⟨some "registry.example.com/img:v2"⟩⟩⟩⟩⟩⟩, none⟩
      = .ok ⟨"q_5", "custom",
          some ⟨some ⟨some ⟨some "registry.example.com/img:v2"⟩⟩⟩⟩ ∧
    ("registry.example.com/img:v2" : String).data <:+:
      (updateSuccessMessage ⟨"q_5", "custom",
        some ⟨some ⟨some ⟨some "registry.example.com/img:v2"⟩⟩⟩⟩).data :=
  c5_success _ _ "registry.example.com/img:v2" (Or.inl rfl) rfl rfl

/-- Claim C6: the errors collection is checked before the data fields; a
response with both a non-empty errors collection and a missing nested queue
object fails with the joined error messages, not with the no-data message. -/
theorem c6_errors_before_data (response : GraphQLResponse MutData)
    (es : List GraphQLError) (herr : response.errors = some es)
    (hne : 0 < es.length) (hq : nestedClusterQueue response = none) :
    updateClusterQueue response =
      .error (.mutationError (graphQLErrorsMessage es)) ∧
    updateClusterQueue response ≠ .error (.mutationError noDataMessage) := by
  have h1 : updateClusterQueue response =
      .error (.mutationError (graphQLErrorsMessage es)) := by
    simp only [updateClusterQueue, herr]
    rw [if_pos hne]
  refine ⟨h1, ?_⟩
  rw [h1]
  intro hcontra
  simp only [Except.error.injEq, UpdateError.mutationError.injEq] at hcontra
  exact graphQLErrorsMessage_ne_noData es hcontra

/-- Witness for `c6_errors_before_data` at a response with one error and no
data. -/
theorem c6_errors_before_data_witness :
    updateClusterQueue ⟨none, some [⟨"permission denied"⟩]⟩ =
      .error (.mutationError (graphQLErrorsMessage [⟨"permission denied"⟩])) ∧
    updateClusterQueue ⟨none, some [⟨"permission denied"⟩]⟩ ≠
      .error (.mutationError noDataMessage) :=
  c6_errors_before_data _ _ rfl (by decide) rfl

/-- Claim C7, counterexample: with the credential environment variable
present but holding the empty string, construction raises the configuration
error (JavaScript falsiness), contradicting "for every construction with the
credential present, no error is raised". -/
theorem c7_counterexample :
    mkBuildkiteImageUpdater (some "") =
      ([], .error (.configurationError missingTokenMessage)) := rfl

/-- Claim C7 as amended: an absent credential makes construction fail
immediately with a configuration error; the constructor performs zero
network calls on every path; and for every construction with a present,
non-empty credential no error is raised. -/
theorem c7_construction :
    mkBuildkiteImageUpdater none =
      ([], .error (.configurationError missingTokenMessage)) ∧
    (∀ env, (mkBuildkiteImageUpdater env).1 = []) ∧
    (∀ t : String, t ≠ "" → mkBuildkiteImageUpdater (some t) = ([], .ok ⟨t⟩)) := by
  refine ⟨rfl, ?_, ?_⟩
  · intro env
    unfold mkBuildkiteImageUpdater
    split <;> rfl
  · intro t ht
    simp [mkBuildkiteImageUpdater, isFalsyEnvString, ht]

/-- Witness for `c7_construction` at a concrete non-empty token. -/
theorem c7_construction_witness :
    mkBuildkiteImageUpdater (some "bkua_token") = ([], .ok ⟨"bkua_token"⟩) :=
  c7_construction.2.2 "bkua_token" (by decide)

/-- Claim C9: two runs of `updateBaseImageUrl` that differ only in the
`clusterId` argument send the same requests (operation texts, variables,
headers) and produce the same outcome. -/
theorem c9_clusterId_unused
    (apiToken orgSlug clusterId1 clusterId2 queueId imageUrl : String)
    (orgResponse : RawResponse (GraphQLResponse OrgData))
    (mutResponse : RawResponse (GraphQLResponse MutData)) :
    updateBaseImageUrl apiToken orgSlug clusterId1 queueId imageUrl
        orgResponse mutResponse =
      updateBaseImageUrl apiToken orgSlug clusterId2 queueId imageUrl
        orgResponse mutResponse := rfl

/-- Claim C10: organization resolution never inspects the errors collection:
the result is a function of the data field alone; with the organization
object present it succeeds whatever the errors collection holds, and with it
absent it fails with the not-found message whatever the errors collection
holds. -/
theorem c10_org_ignores_errors :
    (∀ (orgSlug : String) (d : Option OrgData)
        (e1 e2 : Option (List GraphQLError)),
      getOrganizationId orgSlug ⟨d, e1⟩ = getOrganizationId orgSlug ⟨d, e2⟩) ∧
    (∀ (orgSlug : String) (d : Option OrgData)
        (errs : Option (List GraphQLError)) (org : Organization),
      d.bind (fun x => x.organization) = some org →
      getOrganizationId orgSlug ⟨d, errs⟩ = .ok org.id) ∧
    (∀ (orgSlug : String) (d : Option OrgData)
        (errs : Option (List GraphQLError)),
      d.bind (fun x => x.organization) = none →
      getOrganizationId orgSlug ⟨d, errs⟩ =
        .error (.organizationNotFoundError (orgNotFoundMessage orgSlug))) := by
  refine ⟨fun _ _ _ _ => rfl, ?_, ?_⟩
  · intro s d errs org h
    simp [getOrganizationId, h]
  · intro s d errs h
    simp [getOrganizationId, h]

/-- Witness for `c10_org_ignores_errors`: resolution succeeds at a response
carrying a non-empty errors collection alongside the organization object,
and reports not-found at a response with errors but no organization. -/
theorem c10_org_ignores_errors_witness :
    getOrganizationId "acme" ⟨some ⟨some ⟨"org_9", "Acme", "acme"⟩⟩,
        some [⟨"some error"⟩]⟩ = .ok "org_9" ∧
    getOrganizationId "acme" ⟨none, some [⟨"some error"⟩]⟩ =
      .error (.organizationNotFoundError (orgNotFoundMessage "acme")) :=
  ⟨c10_org_ignores_errors.2.1 "acme" (some ⟨some ⟨"org_9", "Acme", "acme"⟩⟩)
      (some [⟨"some error"⟩]) ⟨"org_9", "Acme", "acme"⟩ rfl,
   c10_org_ignores_errors.2.2 "acme" none (some [⟨"some error"⟩]) rfl⟩

/-- Claim C8: for every body containing an attribute assignment of the form
`name="authenticity_token" ... value="X"` (the decomposition hypotheses say
the exhibited occurrences are the first ones and `X` is the value group,
i.e. quote-free), extraction yields exactly `X`; for every body lacking that
pattern, extraction fails with the session-acquisition error. -/
theorem c8_token_extraction :
    (∀ pre mid tok post : List Char,
      (∀ b a, pre ++ authenticityTokenMarker.data ++ mid ++
            valueAttrMarker.data ++ tok ++ '"' :: post =
          b ++ authenticityTokenMarker.data ++ a → pre.length ≤ b.length) →
      (∀ b a, mid ++ valueAttrMarker.data ++ tok ++ '"' :: post =
          b ++ valueAttrMarker.data ++ a → mid.length ≤ b.length) →
      (∀ x ∈ tok, x ≠ '"') →
      extractAuthenticityToken ⟨pre ++ authenticityTokenMarker.data ++ mid ++
          valueAttrMarker.data ++ tok ++ '"' :: post⟩ = .ok ⟨tok⟩) ∧
    (∀ body : String, ¬ containsTokenPattern body →
      extractAuthenticityToken body =
        .error (.sessionAcquisitionError sessionAcquisitionMessage)) := by
  constructor
  · intro pre mid tok post hfm hfv htok
    have hbody : pre ++ authenticityTokenMarker.data ++ mid ++
        valueAttrMarker.data ++ tok ++ '"' :: post =
        pre ++ authenticityTokenMarker.data ++
          (mid ++ valueAttrMarker.data ++ (tok ++ '"' :: post)) := by
      simp [List.append_assoc]
    have hrest : mid ++ valueAttrMarker.data ++ tok ++ '"' :: post =
        mid ++ valueAttrMarker.data ++ (tok ++ '"' :: post) := by
      simp [List.append_assoc]
    have h1 : splitFirst authenticityTokenMarker.data
        (pre ++ authenticityTokenMarker.data ++
          (mid ++ valueAttrMarker.data ++ (tok ++ '"' :: post))) =
        some (pre, mid ++ valueAttrMarker.data ++ (tok ++ '"' :: post)) :=
      splitFirst_eq_some_of_first pre
        (fun b a h => hfm b a (by rw [hbody]; exact h))
    have h2 : splitFirst valueAttrMarker.data
        (mid ++ valueAttrMarker.data ++ (tok ++ '"' :: post)) =
        some (mid, tok ++ '"' :: post) :=
      splitFirst_eq_some_of_first mid
        (fun b a h => hfv b a (by rw [hrest]; exact h))
    have h3 := @takeWhile_append_quote tok post htok
    unfold extractAuthenticityToken
    rw [show (⟨pre ++ authenticityTokenMarker.data ++ mid ++
        valueAttrMarker.data ++ tok ++ '"' :: post⟩ : String).data =
        pre ++ authenticityTokenMarker.data ++ mid ++
          valueAttrMarker.data ++ tok ++ '"' :: post from rfl]
    rw [hbody]
    simp only [h1, h2, h3.1, h3.2]
  · intro body hnc
    rcases hsplit1 : splitFirst authenticityTokenMarker.data body.data with
      _ | ⟨b1, afterMarker⟩
    · simp [extractAuthenticityToken, hsplit1]
    · rcases hsplit2 : splitFirst valueAttrMarker.data afterMarker with
        _ | ⟨b2, afterValue⟩
      · simp [extractAuthenticityToken, hsplit1, hsplit2]
      · rcases hdrop : afterValue.dropWhile (fun c => c != '"') with
          _ | ⟨c, rest⟩
        · simp [extractAuthenticityToken, hsplit1, hsplit2, hdrop]
        · by_cases hc : c = '"'
          · exfalso
            apply hnc
            subst hc
            have e1 := splitFirst_eq_some hsplit1
            have e2 := splitFirst_eq_some hsplit2
            have e3 : afterValue =
                afterValue.takeWhile (fun c => c != '"') ++ '"' :: rest := by
              conv_lhs =>
                rw [← List.takeWhile_append_dropWhile (fun c => c != '"')
                  afterValue]
              rw [hdrop]
            refine ⟨b1, b2, afterValue.takeWhile (fun c => c != '"'), rest, ?_⟩
            unfold tokenPatternAt
            rw [e1, e2]
            conv_lhs => rw [e3]
            simp [List.append_assoc]
          · simp [extractAuthenticityToken, hsplit1, hsplit2, hdrop, hc]

/-- Witness for `c8_token_extraction`: a body that is exactly the pattern
with value group `abc123` extracts `abc123`, and a body without the pattern
fails. -/
theorem c8_token_extraction_witness :
    extractAuthenticityToken ⟨[] ++ authenticityTokenMarker.data ++ [] ++
        valueAttrMarker.data ++ ("abc123" : String).data ++ '"' :: []⟩ =
      .ok ⟨("abc123" : String).data⟩ ∧
    extractAuthenticityToken "<html></html>" =
      .error (.sessionAcquisitionError sessionAcquisitionMessage) :=
  ⟨c8_token_extraction.1 [] [] ("abc123" : String).data []
      (fun _ _ _ => Nat.zero_le _) (fun _ _ _ => Nat.zero_le _) (by decide),
   c8_token_extraction.2 "<html></html>" (by
      rintro ⟨pre, mid, tok, post, h⟩
      have hl := congrArg List.length h
      have hm : authenticityTokenMarker.data.length = 25 := by decide
      have hv : valueAttrMarker.data.length = 7 := by decide
      have hb : ("<html></html>" : String).data.length = 13 := by decide
      simp only [List.length_append, List.length_cons, hm, hv, hb] at hl
      omega)⟩

end UpdateBaseImage
